import Mathlib

/-!
Verification of the Excel-backed persistence layer of `src/main.py`
(ProgPython): the sheet-preserving save helper
`save_excel_with_updated_sheet`, the DocuSign configuration save
`MainApplication.save_docusign`, and the save handlers of the add forms of
the three personnel registries (MAR titulaires, IADE remplaçants,
salariés).

The embedding models a file at the abstraction level the program observes:
either a workbook that `pd.ExcelFile` parses (the ordered list of sheets,
each a list of rows) or content it rejects.  The filesystem is a map from
paths to file data.  Each fallible I/O operation of the routine carries a
fault flag modelling the exception the corresponding Python call may
raise; the routine also returns the trace of I/O steps it performed, in
program order, so that ordering claims are statable.
-/

/-- A cell of a spreadsheet row. -/
abbrev Cell := String

/-- A pandas DataFrame, modelled by its row data. -/
abbrev DF := List (List Cell)

/-- An Excel workbook: the ordered list of (sheet name, sheet data) pairs,
in the order `pd.ExcelFile.sheet_names` exposes and in which the Python
dict `sheets` holds them. -/
abbrev Workbook := List (String × DF)

/-- The data of a file on disk, at the abstraction level the program
observes: either a workbook that the Excel reader parses, or content it
rejects (a non-Excel or incompletely written file). -/
inductive FileData
  | workbook (wb : Workbook)
  | corrupted
deriving DecidableEq

/-- The filesystem: each path holds the data of a file, or nothing. -/
def FS : Type := String → Option FileData

/-- Create or overwrite the file at path `p` (the effect of writing or of
`shutil.copy2` onto `p`). -/
def FS.set (fs : FS) (p : String) (d : FileData) : FS :=
  fun q => if q = p then some d else fs q

/-- Delete the file at path `p` (the effect of `os.remove`). -/
def FS.del (fs : FS) (p : String) : FS :=
  fun q => if q = p then none else fs q

/-- The I/O steps of `save_excel_with_updated_sheet`, in program order.
`verify` names a re-reading/validation step of the written workbook; the
constructor exists so that its absence from every trace is statable. -/
inductive Ev
  | checkLock
  | copyBackup
  | loadSheet (name : String)
  | replaceSheet (name : String)
  | rewrite (names : List String)
  | deleteBackup
  | restoreBackup
  | verify
deriving DecidableEq

/-- Which fallible operations inside `save_excel_with_updated_sheet`
raise, modelling the exceptions of the corresponding Python calls: the
exclusive open in mode r+b (line 2013), `shutil.copy2` to the backup
(line 2027), the `pd.ExcelFile` read (lines 2035-2042), the
`pd.ExcelWriter` rewrite (lines 2064-2067), `os.remove` of the backup
(line 2073), and `shutil.copy2` back from the backup (line 2091). -/
structure Faults where
  locked : Bool
  copyFails : Bool
  readFails : Bool
  writeFails : Bool
  removeFails : Bool
  restoreFails : Bool
deriving DecidableEq

/-- A run in which every I/O operation succeeds. -/
def noFaults : Faults := ⟨false, false, false, false, false, false⟩

/-- `sheets[sheet_name] = updated_data` on the Python dict of sheets
(line 2059): replace the named entry in place, keeping insertion order, or
append it at the end when the key is new. -/
def updateSheet : Workbook → String → DF → Workbook
  | [], name, df => [(name, df)]
  | (s, d) :: rest, name, df =>
    if s = name then (name, df) :: rest else (s, d) :: updateSheet rest name df

/-- The sheet names of a workbook, in order. -/
def sheetNames (wb : Workbook) : List String := wb.map Prod.fst

/-- The data of the named sheet, when present. -/
def lookupSheet : Workbook → String → Option DF
  | [], _ => none
  | (s, d) :: rest, name => if s = name then some d else lookupSheet rest name

/-- What `pd.ExcelFile` yields on the data of a file: the workbook when
the data parses, failure otherwise. -/
def parseWb : FileData → Option Workbook
  | FileData.workbook wb => some wb
  | FileData.corrupted => none

/-- `save_excel_with_updated_sheet` of src/main.py (lines 1979-2104).
Returns the Python boolean result, the filesystem after the call, and the
trace of I/O steps performed.  `updated_data = none` models an argument
that is not a pandas DataFrame; `file_path = ""` models a missing or empty
path.  Mirrors the source in order: parameter checks (lines 1994-2007),
lock probe (lines 2011-2021), backup copy whose failure is only logged
(lines 2024-2030), load of every sheet (lines 2033-2046), in-memory
replacement (line 2059), rewrite of all sheets (lines 2062-2067) with
backup deletion on success (lines 2071-2076) and attempted restoration on
failure (lines 2088-2094), the deletion and the restoration each tolerating
their own failure. -/
def save_excel_with_updated_sheet (fs : FS) (file_path sheet_name : String)
    (updated_data : Option DF) (f : Faults) : Bool × FS × List Ev :=
  if file_path = "" ∨ fs file_path = none then (false, fs, [])
  else if sheet_name = "" then (false, fs, [])
  else
    match updated_data with
    | none => (false, fs, [])
    | some df =>
      if f.locked then (false, fs, [Ev.checkLock])
      else
        let backup_path := file_path ++ ".bak"
        let orig := (fs file_path).getD FileData.corrupted
        let fs1 := if f.copyFails then fs else FS.set fs backup_path orig
        match (if f.readFails then none else parseWb orig) with
        | none => (false, fs1, [Ev.checkLock, Ev.copyBackup])
        | some wb =>
          let sheets := updateSheet wb sheet_name df
          let tr := [Ev.checkLock, Ev.copyBackup]
            ++ wb.map (fun sd => Ev.loadSheet sd.1)
            ++ [Ev.replaceSheet sheet_name, Ev.rewrite (sheetNames sheets)]
          if f.writeFails then
            let fs2 := FS.set fs1 file_path FileData.corrupted
            match fs2 backup_path with
            | some bak =>
              (false, (if f.restoreFails then fs2 else FS.set fs2 file_path bak),
                tr ++ [Ev.restoreBackup])
            | none => (false, fs2, tr)
          else
            let fs2 := FS.set fs1 file_path (FileData.workbook sheets)
            match fs2 backup_path with
            | some _ =>
              (true, (if f.removeFails then fs2 else FS.del fs2 backup_path),
                tr ++ [Ev.deleteBackup])
            | none => (true, fs2, tr)

/-- A JSON value stored in config.json: a string, or any other JSON data
(abstracted by a tag). -/
inductive JVal
  | str (s : String)
  | other (tag : Nat)
deriving DecidableEq

/-- The parsed content of config.json: each key holds a value, or nothing. -/
def Config : Type := String → Option JVal

/-- `config[k] = v` on the parsed JSON object. -/
def Config.set (c : Config) (k : String) (v : JVal) : Config :=
  fun q => if q = k then some v else c q

/-- `MainApplication.save_docusign` of src/main.py (lines 655-682): loads
the existing config.json when the file exists (otherwise starts from an
empty object), sets the three DocuSign keys to the entered strings
verbatim (lines 671-673), and dumps the result back to config.json.  The
returned Config is the object `json.dump` writes. -/
def save_docusign (existing : Option Config) (login_page email password : String) :
    Config :=
  Config.set (Config.set (Config.set
    (match existing with | some c => c | none => fun _ => none)
    "docusign_login_page" (JVal.str login_page))
    "docusign_email" (JVal.str email))
    "docusign_password" (JVal.str password)

/-- A row of a registry table, as the dict `new_row` of the save handlers:
column name to entered value. -/
abbrev Row := List (String × String)

/-- `save_new` of `manage_mar_titulaires.on_add` (src/main.py lines
1098-1124): when the name or first-name entry is blank after stripping,
return without appending and without saving (modelled by `none`);
otherwise append the row of entered values at the end of the table and
save it (modelled by `some` of the table passed to
`save_excel_with_updated_sheet`). -/
def mar_save_new (nom prenom ordre email iban : String)
    (mars_titulaires : List Row) : Option (List Row) :=
  if nom.trim = "" ∨ prenom.trim = "" then none
  else some (mars_titulaires ++
    [[("NOM", nom), ("PRENOM", prenom), ("N ORDRE", ordre), ("EMAIL", email),
      ("IBAN", iban)]])

/-- `save_new` of `manage_iade_remplacants.on_add` (src/main.py lines
1539-1574): same discipline as the MAR handler, with the IADE columns. -/
def iade_save_new (nom prenom email ddn lieu_naissance dept_naissance adresse
    secu nationalite sexe er ilr salarier iban : String)
    (iade_data : List Row) : Option (List Row) :=
  if nom.trim = "" ∨ prenom.trim = "" then none
  else some (iade_data ++
    [[("NOMR", nom), ("PRENOMR", prenom), ("EMAIL", email), ("DDNR", ddn),
      ("LIEUNR", lieu_naissance), ("DPTN", dept_naissance),
      ("ADRESSER", adresse), ("NOSSR", secu), ("NATR", nationalite),
      ("SEXE", sexe), ("ER", er), ("ILR", ilr), ("SALARIER", salarier),
      ("IBAN", iban)]])

/-- `save_new` of `manage_salaries.on_add` (src/main.py lines 1867-1897):
same discipline as the MAR handler, with the salaried-staff columns. -/
def salaries_save_new (nom prenom email poste adresse iban : String)
    (salaries_data : List Row) : Option (List Row) :=
  if nom.trim = "" ∨ prenom.trim = "" then none
  else some (salaries_data ++
    [[("NOM", nom), ("PRENOM", prenom), ("EMAIL", email), ("POSTE", poste),
      ("ADRESSE", adresse), ("IBAN", iban)]])

/-- A concrete filesystem used by the concrete instantiations below: one
workbook file with a single sheet S holding one row. -/
def fsEx : FS :=
  fun q => if q = "f.xlsx" then some (FileData.workbook [("S", [["a"]])]) else none

/-- A concrete filesystem with two sheets, S and T. -/
def fsEx2 : FS :=
  fun q =>
    if q = "g.xlsx" then some (FileData.workbook [("S", [["a"]]), ("T", [["t"]])])
    else none

/-! ## Helper lemmas -/

/-- The backup path differs from the path it backs up. -/
theorem bak_ne (p : String) : ¬(p ++ ".bak" = p) := by
  intro h
  have hlen := congrArg String.length h
  rw [String.length_append] at hlen
  have h4 : (".bak" : String).length = 4 := rfl
  omega

theorem FS.set_self (fs : FS) (p : String) (d : FileData) :
    FS.set fs p d p = some d := by
  simp [FS.set]

theorem FS.set_ne {fs : FS} {p q : String} {d : FileData} (h : ¬(q = p)) :
    FS.set fs p d q = fs q := by
  simp [FS.set, h]

theorem FS.del_self (fs : FS) (p : String) : FS.del fs p p = none := by
  simp [FS.del]

theorem FS.del_ne {fs : FS} {p q : String} (h : ¬(q = p)) :
    FS.del fs p q = fs q := by
  simp [FS.del, h]

theorem lookupSheet_updateSheet_self (wb : Workbook) (s : String) (df : DF) :
    lookupSheet (updateSheet wb s df) s = some df := by
  induction wb with
  | nil => simp [updateSheet, lookupSheet]
  | cons hd tl ih =>
    by_cases h : hd.1 = s
    · simp [updateSheet, lookupSheet, h]
    · simp [updateSheet, lookupSheet, h, ih]

theorem lookupSheet_updateSheet_ne (wb : Workbook) (s t : String) (df : DF)
    (h : ¬(t = s)) :
    lookupSheet (updateSheet wb s df) t = lookupSheet wb t := by
  have ht : ¬(s = t) := fun he => h he.symm
  induction wb with
  | nil => simp [updateSheet, lookupSheet, ht]
  | cons hd tl ih =>
    by_cases hh : hd.1 = s
    · simp [updateSheet, lookupSheet, hh, ht]
    · simp [updateSheet, lookupSheet, hh, ih]

theorem sheetNames_updateSheet_mem (wb : Workbook) (s : String) (df : DF)
    (h : s ∈ sheetNames wb) :
    sheetNames (updateSheet wb s df) = sheetNames wb := by
  induction wb with
  | nil => simp [sheetNames] at h
  | cons hd tl ih =>
    by_cases hh : hd.1 = s
    · simp [updateSheet, sheetNames, hh]
    · have htl : s ∈ sheetNames tl := by
        simp only [sheetNames, List.map_cons, List.mem_cons] at h
        rcases h with h1 | h1
        · exact absurd h1.symm hh
        · simpa [sheetNames] using h1
      have hres := ih htl
      simp only [sheetNames] at hres
      simp [updateSheet, sheetNames, hh, hres]

theorem updateSheet_not_mem (wb : Workbook) (s : String) (df : DF)
    (h : ¬(s ∈ sheetNames wb)) :
    updateSheet wb s df = wb ++ [(s, df)] := by
  induction wb with
  | nil => simp [updateSheet]
  | cons hd tl ih =>
    have hh : ¬(hd.1 = s) := by
      intro he
      exact h (by simp [sheetNames, he])
    have htl : ¬(s ∈ sheetNames tl) := by
      intro hm
      exact h (by simp [sheetNames] at hm ⊢; right; exact hm)
    simp [updateSheet, hh, ih htl]

/-- The fault-free run on an existing, parseable workbook, a nonempty
sheet name and a DataFrame: the complete result of the routine, with the
rewrite either succeeding or raising according to `w`. -/
theorem save_run (fs : FS) (p s : String) (df : DF) (wb : Workbook) (w : Bool)
    (hp : ¬(p = "")) (hfs : fs p = some (FileData.workbook wb)) (hs : ¬(s = "")) :
    save_excel_with_updated_sheet fs p s (some df) ⟨false, false, false, w, false, false⟩
      = (!w,
         (if w
          then FS.set (FS.set (FS.set fs (p ++ ".bak") (FileData.workbook wb)) p
                 FileData.corrupted) p (FileData.workbook wb)
          else FS.del (FS.set (FS.set fs (p ++ ".bak") (FileData.workbook wb)) p
                 (FileData.workbook (updateSheet wb s df))) (p ++ ".bak")),
         [Ev.checkLock, Ev.copyBackup] ++ wb.map (fun sd => Ev.loadSheet sd.1)
           ++ [Ev.replaceSheet s, Ev.rewrite (sheetNames (updateSheet wb s df)),
               if w then Ev.restoreBackup else Ev.deleteBackup]) := by
  have hbak : FS.set fs (p ++ ".bak") (FileData.workbook wb) (p ++ ".bak")
      = some (FileData.workbook wb) := FS.set_self _ _ _
  cases w with
  | false =>
    simp only [save_excel_with_updated_sheet, hp, hfs, parseWb]
    simp [FS.set_ne (bak_ne p), hbak, hs]
  | true =>
    simp only [save_excel_with_updated_sheet, hp, hfs, parseWb]
    simp [FS.set_ne (bak_ne p), hbak, hs]

/-! ## Claim theorems -/

/-- C1: on an existing, unlocked, parseable workbook file, a nonempty
sheet name and a DataFrame, with every step succeeding except possibly the
rewrite, the routine performs exactly these steps in this order: the lock
probe, the copy to the .bak sidecar, the load of every existing sheet, the
replacement of the named sheet in memory, the rewrite of the whole
workbook, and the backup deletion on success or its restoration on
failure; it returns True exactly when the rewrite succeeded, and on
success the file holds every sheet with the named one replaced. -/
theorem C1_save_steps_in_order (fs : FS) (p s : String) (df : DF)
    (wb : Workbook) (w : Bool)
    (hp : ¬(p = "")) (hfs : fs p = some (FileData.workbook wb)) (hs : ¬(s = "")) :
    (save_excel_with_updated_sheet fs p s (some df)
        ⟨false, false, false, w, false, false⟩).1 = !w ∧
    (save_excel_with_updated_sheet fs p s (some df)
        ⟨false, false, false, w, false, false⟩).2.2
      = [Ev.checkLock, Ev.copyBackup] ++ wb.map (fun sd => Ev.loadSheet sd.1)
        ++ [Ev.replaceSheet s, Ev.rewrite (sheetNames (updateSheet wb s df)),
            if w then Ev.restoreBackup else Ev.deleteBackup] ∧
    (w = false →
      (save_excel_with_updated_sheet fs p s (some df)
          ⟨false, false, false, w, false, false⟩).2.1 p
        = some (FileData.workbook (updateSheet wb s df))) := by
  have h := save_run fs p s df wb w hp hfs hs
  refine ⟨by rw [h], by rw [h], ?_⟩
  intro hw
  subst hw
  have hne : ¬(p = p ++ ".bak") := fun he => bak_ne p he.symm
  rw [h]
  simp [FS.del_ne hne, FS.set_self]

/-- Concrete instantiation of C1: hypotheses and conclusion at a one-sheet
workbook, with the rewrite succeeding. -/
theorem C1_save_steps_in_order_witness :
    (¬(("f.xlsx" : String) = "") ∧
     fsEx "f.xlsx" = some (FileData.workbook [("S", [["a"]])]) ∧
     ¬(("S" : String) = "")) ∧
    ((save_excel_with_updated_sheet fsEx "f.xlsx" "S" (some [["b"]])
        ⟨false, false, false, false, false, false⟩).1 = !false ∧
     (save_excel_with_updated_sheet fsEx "f.xlsx" "S" (some [["b"]])
        ⟨false, false, false, false, false, false⟩).2.2
       = [Ev.checkLock, Ev.copyBackup]
         ++ [(("S" : String), ([["a"]] : DF))].map (fun sd => Ev.loadSheet sd.1)
         ++ [Ev.replaceSheet "S",
             Ev.rewrite (sheetNames (updateSheet [("S", [["a"]])] "S" [["b"]])),
             if false then Ev.restoreBackup else Ev.deleteBackup] ∧
     (false = false →
       (save_excel_with_updated_sheet fsEx "f.xlsx" "S" (some [["b"]])
          ⟨false, false, false, false, false, false⟩).2.1 "f.xlsx"
         = some (FileData.workbook (updateSheet [("S", [["a"]])] "S" [["b"]])))) :=
  ⟨⟨by decide, by decide, by decide⟩,
   C1_save_steps_in_order fsEx "f.xlsx" "S" [["b"]] [("S", [["a"]])] false
     (by decide) (by decide) (by decide)⟩

/-- C2 counterexample: the backup copy succeeds, the rewrite raises, and
the restoring copy raises as well; the call returns False yet the workbook
on disk is left in the partially written state rather than its previous
contents, so the claimed atomicity on error does not hold as stated. -/
theorem C2_counterexample :
    (save_excel_with_updated_sheet fsEx "f.xlsx" "S" (some [["b"]])
        ⟨false, false, false, true, false, true⟩).1 = false ∧
    (save_excel_with_updated_sheet fsEx "f.xlsx" "S" (some [["b"]])
        ⟨false, false, false, true, false, true⟩).2.1 "f.xlsx"
      = some FileData.corrupted ∧
    ¬((save_excel_with_updated_sheet fsEx "f.xlsx" "S" (some [["b"]])
        ⟨false, false, false, true, false, true⟩).2.1 "f.xlsx"
      = fsEx "f.xlsx") := by
  refine ⟨by decide, by decide, by decide⟩

/-- C2 amended: when the backup copy was created successfully, the rewrite
raises, and the restoring copy itself succeeds, the routine restores the
file from the .bak backup and returns False, so the workbook holds its
previous contents. -/
theorem C2_restore_on_failure (fs : FS) (p s : String) (df : DF)
    (wb : Workbook)
    (hp : ¬(p = "")) (hfs : fs p = some (FileData.workbook wb)) (hs : ¬(s = "")) :
    (save_excel_with_updated_sheet fs p s (some df)
        ⟨false, false, false, true, false, false⟩).1 = false ∧
    (save_excel_with_updated_sheet fs p s (some df)
        ⟨false, false, false, true, false, false⟩).2.1 p = fs p := by
  have h := save_run fs p s df wb true hp hfs hs
  rw [h]
  exact ⟨rfl, by simp [FS.set_self, hfs]⟩

/-- Concrete instantiation of C2 amended: hypotheses and conclusion at a
one-sheet workbook with a failing rewrite and a succeeding restore. -/
theorem C2_restore_on_failure_witness :
    (¬(("f.xlsx" : String) = "") ∧
     fsEx "f.xlsx" = some (FileData.workbook [("S", [["a"]])]) ∧
     ¬(("S" : String) = "")) ∧
    (save_excel_with_updated_sheet fsEx "f.xlsx" "S" (some [["b"]])
        ⟨false, false, false, true, false, false⟩).1 = false ∧
    (save_excel_with_updated_sheet fsEx "f.xlsx" "S" (some [["b"]])
        ⟨false, false, false, true, false, false⟩).2.1 "f.xlsx"
      = fsEx "f.xlsx" := by
  have h := C2_restore_on_failure fsEx "f.xlsx" "S" [["b"]] [("S", [["a"]])]
    (by decide) (by decide) (by decide)
  exact ⟨⟨by decide, by decide, by decide⟩, h.1, h.2⟩

/-- C4: when the target file is locked (the exclusive open in mode r+b
raises), the routine returns False and leaves the filesystem exactly as it
was: no backup is created and no file is modified. -/
theorem C4_locked_unchanged (fs : FS) (p s : String) (d : Option DF)
    (f : Faults) (h : f.locked = true) :
    (save_excel_with_updated_sheet fs p s d f).1 = false ∧
    (save_excel_with_updated_sheet fs p s d f).2.1 = fs := by
  have key : ∃ tr, save_excel_with_updated_sheet fs p s d f = (false, fs, tr) := by
    unfold save_excel_with_updated_sheet
    split
    · exact ⟨[], rfl⟩
    · split
      · exact ⟨[], rfl⟩
      · rcases d with _ | df
        · exact ⟨[], rfl⟩
        · exact ⟨[Ev.checkLock], by simp [h]⟩
  obtain ⟨tr, htr⟩ := key
  rw [htr]
  exact ⟨rfl, rfl⟩

/-- Concrete instantiation of C4: a locked run on a concrete filesystem
returns False and leaves it untouched. -/
theorem C4_locked_unchanged_witness :
    (Faults.mk true false false false false false).locked = true ∧
    ((save_excel_with_updated_sheet fsEx "f.xlsx" "S" (some [["b"]])
        ⟨true, false, false, false, false, false⟩).1 = false ∧
     (save_excel_with_updated_sheet fsEx "f.xlsx" "S" (some [["b"]])
        ⟨true, false, false, false, false, false⟩).2.1 = fsEx) :=
  ⟨rfl, C4_locked_unchanged fsEx "f.xlsx" "S" (some [["b"]])
    ⟨true, false, false, false, false, false⟩ rfl⟩

/-- C5: a successful fault-free save on a workbook containing the named
sheet rewrites the file so that the updated sheet holds the given
DataFrame, every other sheet keeps the row data it held before, and the
sheet-name list is unchanged: no sheet is dropped or added. -/
theorem C5_other_sheets_preserved (fs : FS) (p s : String) (df : DF)
    (wb : Workbook)
    (hp : ¬(p = "")) (hfs : fs p = some (FileData.workbook wb)) (hs : ¬(s = ""))
    (hmem : s ∈ sheetNames wb) :
    (save_excel_with_updated_sheet fs p s (some df) noFaults).1 = true ∧
    (save_excel_with_updated_sheet fs p s (some df) noFaults).2.1 p
      = some (FileData.workbook (updateSheet wb s df)) ∧
    lookupSheet (updateSheet wb s df) s = some df ∧
    (∀ t, ¬(t = s) → lookupSheet (updateSheet wb s df) t = lookupSheet wb t) ∧
    sheetNames (updateSheet wb s df) = sheetNames wb := by
  have h := save_run fs p s df wb false hp hfs hs
  have hne : ¬(p = p ++ ".bak") := fun he => bak_ne p he.symm
  simp only [noFaults]
  refine ⟨by rw [h]; rfl, ?_, lookupSheet_updateSheet_self wb s df,
    fun t ht => lookupSheet_updateSheet_ne wb s t df ht,
    sheetNames_updateSheet_mem wb s df hmem⟩
  rw [h]
  simp [FS.del_ne hne, FS.set_self]

/-- Concrete instantiation of C5 at a two-sheet workbook: updating S
keeps T intact and keeps the sheet list [S, T]. -/
theorem C5_other_sheets_preserved_witness :
    (¬(("g.xlsx" : String) = "") ∧
     fsEx2 "g.xlsx" = some (FileData.workbook [("S", [["a"]]), ("T", [["t"]])]) ∧
     ¬(("S" : String) = "") ∧
     "S" ∈ sheetNames [("S", [["a"]]), ("T", [["t"]])]) ∧
    (save_excel_with_updated_sheet fsEx2 "g.xlsx" "S" (some [["b"]]) noFaults).1
      = true ∧
    (save_excel_with_updated_sheet fsEx2 "g.xlsx" "S" (some [["b"]]) noFaults).2.1
        "g.xlsx"
      = some (FileData.workbook
          (updateSheet [("S", [["a"]]), ("T", [["t"]])] "S" [["b"]])) ∧
    lookupSheet (updateSheet [("S", [["a"]]), ("T", [["t"]])] "S" [["b"]]) "S"
      = some [["b"]] ∧
    lookupSheet (updateSheet [("S", [["a"]]), ("T", [["t"]])] "S" [["b"]]) "T"
      = lookupSheet [("S", [["a"]]), ("T", [["t"]])] "T" ∧
    sheetNames (updateSheet [("S", [["a"]]), ("T", [["t"]])] "S" [["b"]])
      = sheetNames [("S", [["a"]]), ("T", [["t"]])] := by
  have h := C5_other_sheets_preserved fsEx2 "g.xlsx" "S" [["b"]]
    [("S", [["a"]]), ("T", [["t"]])] (by decide) (by decide) (by decide) (by decide)
  exact ⟨⟨by decide, by decide, by decide, by decide⟩,
    h.1, h.2.1, h.2.2.1, h.2.2.2.1 "T" (by decide), h.2.2.2.2⟩

/-- C9: when the named sheet is absent from the workbook, a fault-free
save succeeds and the rewritten workbook is the previous list of sheets
with the new sheet, holding the given DataFrame, appended. -/
theorem C9_missing_sheet_created (fs : FS) (p s : String) (df : DF)
    (wb : Workbook)
    (hp : ¬(p = "")) (hfs : fs p = some (FileData.workbook wb)) (hs : ¬(s = ""))
    (hnot : ¬(s ∈ sheetNames wb)) :
    (save_excel_with_updated_sheet fs p s (some df) noFaults).1 = true ∧
    (save_excel_with_updated_sheet fs p s (some df) noFaults).2.1 p
      = some (FileData.workbook (wb ++ [(s, df)])) := by
  have h := save_run fs p s df wb false hp hfs hs
  have hne : ¬(p = p ++ ".bak") := fun he => bak_ne p he.symm
  have happ := updateSheet_not_mem wb s df hnot
  simp only [noFaults]
  refine ⟨by rw [h]; rfl, ?_⟩
  rw [h]
  simp [FS.del_ne hne, FS.set_self, happ]

/-- Concrete instantiation of C9: saving a T sheet into a workbook that
only holds S appends T. -/
theorem C9_missing_sheet_created_witness :
    (¬(("f.xlsx" : String) = "") ∧
     fsEx "f.xlsx" = some (FileData.workbook [("S", [["a"]])]) ∧
     ¬(("T" : String) = "") ∧
     ¬("T" ∈ sheetNames [("S", [["a"]])])) ∧
    (save_excel_with_updated_sheet fsEx "f.xlsx" "T" (some [["t"]]) noFaults).1
      = true ∧
    (save_excel_with_updated_sheet fsEx "f.xlsx" "T" (some [["t"]]) noFaults).2.1
        "f.xlsx"
      = some (FileData.workbook ([("S", [["a"]])] ++ [("T", [["t"]])])) := by
  have h := C9_missing_sheet_created fsEx "f.xlsx" "T" [["t"]] [("S", [["a"]])]
    (by decide) (by decide) (by decide) (by decide)
  exact ⟨⟨by decide, by decide, by decide, by decide⟩, h.1, h.2⟩

/-- C6 counterexample: a fault-free run except that `os.remove` of the
backup raises; the routine still returns True, and the .bak sidecar
created at the start of the save is still on disk. -/
theorem C6_counterexample :
    (save_excel_with_updated_sheet fsEx "f.xlsx" "S" (some [["b"]])
        ⟨false, false, false, false, true, false⟩).1 = true ∧
    ¬((save_excel_with_updated_sheet fsEx "f.xlsx" "S" (some [["b"]])
        ⟨false, false, false, false, true, false⟩).2.1 "f.xlsx.bak" = none) := by
  refine ⟨by decide, by decide⟩

/-- Every run either returns False or, when the deletion of the backup
does not raise, leaves no file at the backup path. -/
theorem save_false_or_bak_gone (fs : FS) (p s : String) (d : Option DF)
    (f : Faults) (hrm : f.removeFails = false) :
    (save_excel_with_updated_sheet fs p s d f).1 = false ∨
    (save_excel_with_updated_sheet fs p s d f).2.1 (p ++ ".bak") = none := by
  simp only [save_excel_with_updated_sheet]
  split
  · left; rfl
  · split
    · left; rfl
    · split
      · left; rfl
      · split
        · left; rfl
        · split
          · left; rfl
          · split
            · left
              split <;> rfl
            · right
              split
              · simp [hrm, FS.del_self]
              · next heq => simpa using heq

/-- C6 amended: whenever the routine returns True and the deletion of the
backup does not itself raise, the .bak sidecar no longer exists on disk. -/
theorem C6_backup_gone_on_success (fs : FS) (p s : String) (d : Option DF)
    (f : Faults) (hrm : f.removeFails = false)
    (h : (save_excel_with_updated_sheet fs p s d f).1 = true) :
    (save_excel_with_updated_sheet fs p s d f).2.1 (p ++ ".bak") = none := by
  rcases save_false_or_bak_gone fs p s d f hrm with hb | hb
  · rw [h] at hb
    simp at hb
  · exact hb

/-- Concrete instantiation of C6 amended: with the deletion succeeding,
the successful run leaves no .bak behind. -/
theorem C6_backup_gone_on_success_witness :
    (Faults.mk false false false false false false).removeFails = false ∧
    (save_excel_with_updated_sheet fsEx "f.xlsx" "S" (some [["b"]])
        ⟨false, false, false, false, false, false⟩).1 = true ∧
    (save_excel_with_updated_sheet fsEx "f.xlsx" "S" (some [["b"]])
        ⟨false, false, false, false, false, false⟩).2.1 ("f.xlsx" ++ ".bak")
      = none :=
  ⟨rfl, by decide,
   C6_backup_gone_on_success fsEx "f.xlsx" "S" (some [["b"]])
     ⟨false, false, false, false, false, false⟩ rfl (by decide)⟩

/-- C3 counterexample: a fault-free successful save returns True with a
trace holding no verification step at all: after the rewrite the routine
goes straight to deleting the backup and returning True. -/
theorem C3_counterexample :
    (save_excel_with_updated_sheet fsEx "f.xlsx" "S" (some [["b"]])
        ⟨false, false, false, false, false, false⟩).1 = true ∧
    ¬(Ev.verify ∈ (save_excel_with_updated_sheet fsEx "f.xlsx" "S"
        (some [["b"]]) ⟨false, false, false, false, false, false⟩).2.2) := by
  refine ⟨by decide, by decide⟩

/-- Every run either returns False or had a rewrite that raised no
exception. -/
theorem save_false_or_write_ok (fs : FS) (p s : String) (d : Option DF)
    (f : Faults) :
    (save_excel_with_updated_sheet fs p s d f).1 = false ∨
    f.writeFails = false := by
  simp only [save_excel_with_updated_sheet]
  split
  · left; rfl
  · split
    · left; rfl
    · split
      · left; rfl
      · split
        · left; rfl
        · split
          · left; rfl
          · split
            · left
              split <;> rfl
            · next hw =>
              right
              simpa using hw

/-- C3 amended: the routine follows copy-then-overwrite with no
verification step: no run ever performs a verification of the written
workbook, and a True result is determined solely by the rewrite raising no
exception. -/
theorem C3_no_verification_step (fs : FS) (p s : String) (d : Option DF)
    (f : Faults) :
    ¬(Ev.verify ∈ (save_excel_with_updated_sheet fs p s d f).2.2) ∧
    ((save_excel_with_updated_sheet fs p s d f).1 = true →
      f.writeFails = false) := by
  constructor
  · simp only [save_excel_with_updated_sheet]
    split
    · simp
    · split
      · simp
      · split
        · simp
        · split
          · simp
          · split
            · simp
            · split
              · split <;> simp
              · split <;> simp
  · intro h
    rcases save_false_or_write_ok fs p s d f with hb | hb
    · rw [h] at hb
      simp at hb
    · exact hb

/-- Whether a path holds data the Excel reader parses as a workbook. -/
def isWorkbook : Option FileData → Bool
  | some (FileData.workbook _) => true
  | _ => false

/-- C8: the routine is total, returning a boolean on every input, and
returns True exactly when every step needed for the full rewrite
succeeded: a nonempty path holding a parseable workbook, a nonempty sheet
name, DataFrame data, no lock, a successful read of the sheets and a
rewrite that raises no exception; on every other input it returns False. -/
theorem C8_true_iff_rewrite_succeeded (fs : FS) (p s : String) (d : Option DF)
    (f : Faults) :
    (save_excel_with_updated_sheet fs p s d f).1 = true ↔
      (¬(p = "") ∧ isWorkbook (fs p) = true ∧ ¬(s = "") ∧ d.isSome = true ∧
       f.locked = false ∧ f.readFails = false ∧ f.writeFails = false) := by
  simp only [save_excel_with_updated_sheet]
  split
  · next hcond =>
    rcases hcond with hc | hc <;> simp [hc, isWorkbook]
  · next hcond =>
    push_neg at hcond
    obtain ⟨hp1, hp2⟩ := hcond
    obtain ⟨x, hx⟩ := Option.ne_none_iff_exists'.mp hp2
    split
    · next hs1 => simp [hs1]
    · next hs1 =>
      split
      · simp
      · next df =>
        split
        · next hl => simp [hl]
        · next hl =>
          split
          · next heq =>
            rw [hx] at heq
            simp only [Option.getD_some] at heq
            constructor
            · intro hcontra
              simp at hcontra
            · rintro ⟨-, hwb, -, -, -, hrf, -⟩
              rw [hrf] at heq
              simp only [Bool.false_eq_true, if_false] at heq
              cases x with
              | workbook w2 => simp [parseWb] at heq
              | corrupted =>
                rw [hx] at hwb
                simp [isWorkbook] at hwb
          · next wb heq =>
            rw [hx] at heq
            simp only [Option.getD_some] at heq
            have hrf : f.readFails = false := by
              cases hv : f.readFails
              · rfl
              · rw [hv] at heq
                simp at heq
            have hl2 : f.locked = false := by
              cases hv : f.locked
              · rfl
              · exact absurd hv hl
            rw [hrf] at heq
            simp only [Bool.false_eq_true, if_false] at heq
            split
            · next hw =>
              constructor
              · intro hcontra
                exfalso
                revert hcontra
                split <;> simp
              · rintro ⟨-, -, -, -, -, -, hwf⟩
                rw [hwf] at hw
                simp at hw
            · next hw =>
              have hwf : f.writeFails = false := by
                cases hv : f.writeFails
                · rfl
                · exact absurd hv hw
              constructor
              · intro _
                refine ⟨hp1, ?_, hs1, rfl, hl2, hrf, hwf⟩
                rw [hx]
                cases x with
                | corrupted => simp [parseWb] at heq
                | workbook w2 => simp [isWorkbook]
              · intro _
                split <;> rfl

/-- C7: save_docusign stores the three DocuSign credential fields verbatim
as string values under their keys in the dumped config object, and every
other key of the loaded config.json keeps its previous value. -/
theorem C7_docusign_saved_and_frame (cfg : Config) (lp em pw : String) :
    save_docusign (some cfg) lp em pw "docusign_login_page"
      = some (JVal.str lp) ∧
    save_docusign (some cfg) lp em pw "docusign_email" = some (JVal.str em) ∧
    save_docusign (some cfg) lp em pw "docusign_password"
      = some (JVal.str pw) ∧
    (∀ k, ¬(k = "docusign_login_page") → ¬(k = "docusign_email") →
      ¬(k = "docusign_password") →
      save_docusign (some cfg) lp em pw k = cfg k) := by
  have h1 : ¬(("docusign_login_page" : String) = "docusign_password") := by decide
  have h2 : ¬(("docusign_login_page" : String) = "docusign_email") := by decide
  have h3 : ¬(("docusign_email" : String) = "docusign_password") := by decide
  refine ⟨?_, ?_, ?_, ?_⟩
  · simp [save_docusign, Config.set, h1, h2]
  · simp [save_docusign, Config.set, h3]
  · simp [save_docusign, Config.set]
  · intro k hk1 hk2 hk3
    simp [save_docusign, Config.set, hk1, hk2, hk3]

/-- C10: in each of the three registry add forms, a blank (empty or
whitespace-only) name or first name makes the handler return with the
table unchanged and no workbook write; when both are non-blank, exactly
one row holding the entered values is appended at the end of the table,
which is then saved. -/
theorem C10_add_forms_blank_check (nom prenom ordre email iban ddn lieu dept
    adresse secu nationalite sexe er ilr salarier poste : String)
    (t1 t2 t3 : List Row) :
    ((nom.trim = "" ∨ prenom.trim = "") →
      mar_save_new nom prenom ordre email iban t1 = none ∧
      iade_save_new nom prenom email ddn lieu dept adresse secu nationalite
        sexe er ilr salarier iban t2 = none ∧
      salaries_save_new nom prenom email poste adresse iban t3 = none) ∧
    (¬(nom.trim = "") → ¬(prenom.trim = "") →
      mar_save_new nom prenom ordre email iban t1
        = some (t1 ++ [[("NOM", nom), ("PRENOM", prenom), ("N ORDRE", ordre),
            ("EMAIL", email), ("IBAN", iban)]]) ∧
      iade_save_new nom prenom email ddn lieu dept adresse secu nationalite
        sexe er ilr salarier iban t2
        = some (t2 ++ [[("NOMR", nom), ("PRENOMR", prenom), ("EMAIL", email),
            ("DDNR", ddn), ("LIEUNR", lieu), ("DPTN", dept),
            ("ADRESSER", adresse), ("NOSSR", secu), ("NATR", nationalite),
            ("SEXE", sexe), ("ER", er), ("ILR", ilr), ("SALARIER", salarier),
            ("IBAN", iban)]]) ∧
      salaries_save_new nom prenom email poste adresse iban t3
        = some (t3 ++ [[("NOM", nom), ("PRENOM", prenom), ("EMAIL", email),
            ("POSTE", poste), ("ADRESSE", adresse), ("IBAN", iban)]])) := by
  constructor
  · intro h
    refine ⟨?_, ?_, ?_⟩ <;>
      simp only [mar_save_new, iade_save_new, salaries_save_new, if_pos h]
  · intro h1 h2
    have h : ¬(nom.trim = "" ∨ prenom.trim = "") := by
      rintro (hh | hh)
      · exact h1 hh
      · exact h2 hh
    refine ⟨?_, ?_, ?_⟩ <;>
      simp only [mar_save_new, iade_save_new, salaries_save_new, if_neg h]

